import Mathlib

/-!
Verification of the rate limiting and circuit breaker subsystem.

Shallow embedding of `apps/agno-agents/shared/rate_limiter.py`.

Modelling choices:
* Timestamps (`time.time()`) are modelled as `Int` epoch seconds; the claims
  under study only involve integer instants.  Python's floor division `//`
  is `Int.fdiv`.
* The in-memory store `self.memory_store` (a dict from string key to a list
  of timestamps) is a function `String → Option (List Int)`, `none` meaning
  "key not in the dict".
* The Redis counter store is a function from the (structured) bucket key to
  its integer counter, with 0 for an absent key — `INCR` on an absent key
  yields 1, and `GET` of an absent key is read back as `int(None or 0) = 0`.
  The source renders the key as a colon-separated string
  `rate_limit:{type}:{value}:{window}:{bucket}`; here the four components
  are kept as a record, which is that string's parse.  `EXPIRE` is not
  modelled: the TTL equals the window length and is refreshed on every
  increment, so a bucket's counter never expires while its bucket id is
  still current, and every claim stays inside one bucket lifetime.
* The `async` methods have no internal suspension points besides the single
  backend round trip, so each is embedded as a pure state-passing function.
* The `try/except` in `check_rate_limit` is embedded by a flag
  `redisRaises` saying whether the Redis round trip raises; the caught
  exception produces the same fail-open / fallback results the source builds.
-/

namespace RateLimit

/-- The subject classes (`RateLimitType` in the source). -/
inductive RateLimitType where
  | user
  | agent
  | global
  | ip
deriving DecidableEq, Repr

/-- Source `RateLimitType.value`: the string payload of each enum member. -/
def RateLimitType.value : RateLimitType → String
  | .user => "user"
  | .agent => "agent"
  | .global => "global"
  | .ip => "ip"

/-- The `RateLimitConfig` dataclass. -/
structure RateLimitConfig where
  requests_per_minute : Int := 60
  requests_per_hour : Int := 1000
  requests_per_day : Int := 10000
  burst_limit : Int := 10
  window_size : Int := 60
  enabled : Bool := true
deriving DecidableEq, Repr

/-- The `RateLimitResult` dataclass. -/
structure RateLimitResult where
  allowed : Bool
  remaining : Int
  reset_time : Int
  retry_after : Option Int := none
  limit_type : Option RateLimitType := none
  limit_value : Option String := none
deriving DecidableEq, Repr

/-- The in-memory store `self.memory_store`: dict key → timestamp list. -/
abbrev MemStore := String → Option (List Int)

/-- The fresh limiter's memory store (`self.memory_store = {}`). -/
def emptyMemStore : MemStore := fun _ => none

/-- The in-memory dict key `f"{limit_type.value}:{limit_value}"`. -/
def memKey (limit_type : RateLimitType) (limit_value : String) : String :=
  limit_type.value ++ ":" ++ limit_value

/-- The list comprehension cleaning old entries: keep each `timestamp` with
`timestamp > cutoff_time` where `cutoff_time = now - config.window_size`. -/
def pruneEntries (window_size now : Int) (l : List Int) : List Int :=
  l.filter (fun timestamp => decide (now - window_size < timestamp))

/-- Source `RateLimiter._check_memory_rate_limit`, as
state-passing on the memory store. -/
def _check_memory_rate_limit (store : MemStore) (limit_type : RateLimitType)
    (limit_value : String) (config : RateLimitConfig) (now : Int) :
    RateLimitResult × MemStore :=
  let key := memKey limit_type limit_value
  -- `if key not in self.memory_store: self.memory_store[key] = []`
  -- followed by `self.memory_store[key] = [.. cleaned ..]`
  let entries := pruneEntries config.window_size now ((store key).getD [])
  if config.requests_per_minute ≤ (entries.length : Int) then
    -- `len(self.memory_store[key]) >= config.requests_per_minute` → deny
    (⟨false, 0, now + config.window_size, some config.window_size,
      some limit_type, some limit_value⟩,
     fun k => if k = key then some entries else store k)
  else
    -- `self.memory_store[key].append(now)` then admit
    let entries2 := entries ++ [now]
    (⟨true, max 0 (config.requests_per_minute - (entries2.length : Int)),
      now + config.window_size, none, some limit_type, some limit_value⟩,
     fun k => if k = key then some entries2 else store k)

/-- A Redis key `rate_limit:{ltype}:{lvalue}:{window}:{bucket}`, kept as its
four components. -/
structure RedisKey where
  window : String
  ltype : String
  lvalue : String
  bucket : Int
deriving DecidableEq, Repr

/-- The Redis counter store: key → counter value (0 when absent). -/
abbrev RedisStore := RedisKey → Int

/-- Redis `INCR key` applied to the store. -/
def incr (store : RedisStore) (k : RedisKey) : RedisStore :=
  fun k2 => if k2 = k then store k2 + 1 else store k2

/-- Source `minute_key = f"rate_limit:{..}:minute:{now // 60}"`. -/
def minuteKey (limit_type : RateLimitType) (limit_value : String) (now : Int) : RedisKey :=
  ⟨"minute", limit_type.value, limit_value, Int.fdiv now 60⟩

/-- Source `hour_key = f"rate_limit:{..}:hour:{now // 3600}"`. -/
def hourKey (limit_type : RateLimitType) (limit_value : String) (now : Int) : RedisKey :=
  ⟨"hour", limit_type.value, limit_value, Int.fdiv now 3600⟩

/-- Source `day_key = f"rate_limit:{..}:day:{now // 86400}"`. -/
def dayKey (limit_type : RateLimitType) (limit_value : String) (now : Int) : RedisKey :=
  ⟨"day", limit_type.value, limit_value, Int.fdiv now 86400⟩

/-- Python truthiness of the `retry_after` optional: `not retry_after` is
true exactly for `None` and `0`. -/
def optIntFalsy : Option Int → Bool
  | none => true
  | some v => v == 0

/-- Python `x or d` on an optional int: `d` when `x` is falsy, else `x`. -/
def optIntOr (o : Option Int) (d : Int) : Int :=
  match o with
  | none => d
  | some v => if v == 0 then d else v

/-- Source `RateLimiter._check_redis_rate_limit`: one pipelined
`INCR`+`EXPIRE` per window, then the threshold comparison. -/
def _check_redis_rate_limit (store : RedisStore) (limit_type : RateLimitType)
    (limit_value : String) (config : RateLimitConfig) (now : Int) :
    RateLimitResult × RedisStore :=
  let minute_key := minuteKey limit_type limit_value now
  let hour_key := hourKey limit_type limit_value now
  let day_key := dayKey limit_type limit_value now
  -- pipeline: incr minute, incr hour, incr day (expire is a TTL refresh only)
  let store1 := incr store minute_key
  let store2 := incr store1 hour_key
  let store3 := incr store2 day_key
  let minute_count := store1 minute_key   -- results[0]
  let hour_count := store2 hour_key       -- results[2]
  let day_count := store3 day_key         -- results[4]
  if config.requests_per_minute < minute_count ∨
      config.requests_per_hour < hour_count ∨
      config.requests_per_day < day_count then
    -- `retry_after = 60 if minute_count > config.requests_per_minute else None`
    let ra1 : Option Int :=
      if config.requests_per_minute < minute_count then some 60 else none
    -- `if not retry_after and hour_count > config.requests_per_hour: retry_after = 3600`
    let ra2 : Option Int :=
      if optIntFalsy ra1 ∧ config.requests_per_hour < hour_count then some 3600 else ra1
    -- `if not retry_after and day_count > config.requests_per_day: retry_after = 86400`
    let retry_after : Option Int :=
      if optIntFalsy ra2 ∧ config.requests_per_day < day_count then some 86400 else ra2
    (⟨false, 0, now + optIntOr retry_after 60, retry_after,
      some limit_type, some limit_value⟩, store3)
  else
    let remaining :=
      min (min (config.requests_per_minute - minute_count)
        (config.requests_per_hour - hour_count))
        (config.requests_per_day - day_count)
    (⟨true, max 0 remaining, now + 60, none, some limit_type, some limit_value⟩, store3)

/-- The result built both on the `not config.enabled` early return and on the
fail-open `except` branch of `check_rate_limit` (they are textually
identical in the source). -/
def failOpenResult (limit_type : RateLimitType) (limit_value : String)
    (config : RateLimitConfig) (now : Int) : RateLimitResult :=
  ⟨true, config.requests_per_minute, now + config.window_size, none,
   some limit_type, some limit_value⟩

/-- Source `RateLimiter.check_rate_limit`: the facade.  `hasRedis` is
`self.redis_client` being non-`None`; `redisRaises` says whether the Redis
round trip raises (caught by the `except` clause); `fallback_to_memory` is
the constructor flag. -/
def check_rate_limit (hasRedis redisRaises fallback_to_memory : Bool)
    (rstore : RedisStore) (mstore : MemStore) (limit_type : RateLimitType)
    (limit_value : String) (config : RateLimitConfig) (now : Int) :
    RateLimitResult × RedisStore × MemStore :=
  if config.enabled = false then
    (failOpenResult limit_type limit_value config now, rstore, mstore)
  else if hasRedis then
    if redisRaises then
      if fallback_to_memory then
        let r := _check_memory_rate_limit mstore limit_type limit_value config now
        (r.1, rstore, r.2)
      else
        (failOpenResult limit_type limit_value config now, rstore, mstore)
    else
      let r := _check_redis_rate_limit rstore limit_type limit_value config now
      (r.1, r.2, mstore)
  else
    let r := _check_memory_rate_limit mstore limit_type limit_value config now
    (r.1, rstore, r.2)

/-- One window's entry `{count, limit, remaining}` of a status map. -/
structure WindowStatus where
  count : Int
  limit : Int
  remaining : Int
deriving DecidableEq, Repr

/-- The status map returned by `_get_redis_status`. -/
structure RedisStatusMap where
  minute : WindowStatus
  hour : WindowStatus
  day : WindowStatus
  limit_type : String
  limit_value : String
deriving DecidableEq, Repr

/-- Source `RateLimiter._get_redis_status`: three pipelined `GET`s,
no writes, so no store is returned. -/
def _get_redis_status (store : RedisStore) (limit_type : RateLimitType)
    (limit_value : String) (config : RateLimitConfig) (now : Int) : RedisStatusMap :=
  let minute_count := store (minuteKey limit_type limit_value now)
  let hour_count := store (hourKey limit_type limit_value now)
  let day_count := store (dayKey limit_type limit_value now)
  ⟨⟨minute_count, config.requests_per_minute,
    max 0 (config.requests_per_minute - minute_count)⟩,
   ⟨hour_count, config.requests_per_hour,
    max 0 (config.requests_per_hour - hour_count)⟩,
   ⟨day_count, config.requests_per_day,
    max 0 (config.requests_per_day - day_count)⟩,
   limit_type.value, limit_value⟩

/-- The status map returned by `_get_memory_status` (minute window only). -/
structure MemoryStatusMap where
  minute : WindowStatus
  limit_type : String
  limit_value : String
deriving DecidableEq, Repr

/-- Source `RateLimiter._get_memory_status`: prunes the stored list in
place when the key is present, but never appends. -/
def _get_memory_status (store : MemStore) (limit_type : RateLimitType)
    (limit_value : String) (config : RateLimitConfig) (now : Int) :
    MemoryStatusMap × MemStore :=
  let key := memKey limit_type limit_value
  match store key with
  | none =>
    -- `if key not in self.memory_store: current_count = 0` (no write)
    (⟨⟨0, config.requests_per_minute, max 0 (config.requests_per_minute - 0)⟩,
      limit_type.value, limit_value⟩, store)
  | some l =>
    let entries := pruneEntries config.window_size now l
    (⟨⟨(entries.length : Int), config.requests_per_minute,
       max 0 (config.requests_per_minute - (entries.length : Int))⟩,
      limit_type.value, limit_value⟩,
     fun k => if k = key then some entries else store k)

/-- The `CircuitBreaker` instance state.  `state` is one of the strings
`"closed"`, `"open"`, `"half-open"` exactly as in the source. -/
structure CircuitBreaker where
  failure_threshold : Int
  recovery_timeout : Int
  failure_count : Int
  last_failure_time : Option Int
  state : String
deriving DecidableEq, Repr

/-- Source `CircuitBreaker.__init__`. -/
def CircuitBreaker.mkFresh (failure_threshold recovery_timeout : Int) : CircuitBreaker :=
  ⟨failure_threshold, recovery_timeout, 0, none, "closed"⟩

/-- Source `CircuitBreaker.is_open`, returning the boolean together with the
(possibly transitioned) state.  In the `"open"` state the source reads
`self.last_failure_time`, which `record_failure` always set before
opening; the `getD 0` default is never reached from a reachable state. -/
def CircuitBreaker.is_open (cb : CircuitBreaker) (now : Int) : Bool × CircuitBreaker :=
  if cb.state = "open" then
    if cb.recovery_timeout < now - cb.last_failure_time.getD 0 then
      (false, { cb with state := "half-open" })
    else
      (true, cb)
  else
    (false, cb)

/-- Source `CircuitBreaker.record_success`. -/
def CircuitBreaker.record_success (cb : CircuitBreaker) : CircuitBreaker :=
  { cb with failure_count := 0, state := "closed" }

/-- Source `CircuitBreaker.record_failure`, at instant `now`. -/
def CircuitBreaker.record_failure (cb : CircuitBreaker) (now : Int) : CircuitBreaker :=
  let cb2 := { cb with failure_count := cb.failure_count + 1,
                       last_failure_time := some now }
  if cb.failure_threshold ≤ cb2.failure_count then
    { cb2 with state := "open" }
  else
    cb2

/-- A sequence of `record_failure` calls at the given instants. -/
def record_failures (cb : CircuitBreaker) (ts : List Int) : CircuitBreaker :=
  ts.foldl CircuitBreaker.record_failure cb

/-- Applying `_check_memory_rate_limit` `k` times at a fixed instant
(deterministic clock), keeping only the evolving store. -/
def memCheckIter (limit_type : RateLimitType) (limit_value : String)
    (config : RateLimitConfig) (now : Int) : Nat → MemStore → MemStore
  | 0, st => st
  | k + 1, st =>
    (_check_memory_rate_limit (memCheckIter limit_type limit_value config now k st)
      limit_type limit_value config now).2

/-- The result of the `(k+1)`-th fixed-clock memory check (0-indexed `k`). -/
def memCheckResult (limit_type : RateLimitType) (limit_value : String)
    (config : RateLimitConfig) (now : Int) (k : Nat) (st : MemStore) :
    RateLimitResult :=
  (_check_memory_rate_limit (memCheckIter limit_type limit_value config now k st)
    limit_type limit_value config now).1

/-- The results of a sequence of `_check_memory_rate_limit` calls performed
at the given instants, threading the evolving store through the calls. -/
def memCheckResults (limit_type : RateLimitType) (limit_value : String)
    (config : RateLimitConfig) : MemStore → List Int → List RateLimitResult
  | _, [] => []
  | st, t :: ts =>
    (_check_memory_rate_limit st limit_type limit_value config t).1 ::
      memCheckResults limit_type limit_value config
        (_check_memory_rate_limit st limit_type limit_value config t).2 ts

/-- The phrase of the spec's denial rule, "`retry_after` = time remaining in
the (minute) window": with epoch-aligned minute buckets, the next bucket
boundary minus the current time. -/
def minuteWindowTimeRemaining (now : Int) : Int :=
  (Int.fdiv now 60 + 1) * 60 - now

end RateLimit

namespace RateLimit

@[simp] theorem record_failure_count (cb : CircuitBreaker) (t : Int) :
    (cb.record_failure t).failure_count = cb.failure_count + 1 := by
  unfold CircuitBreaker.record_failure
  dsimp only
  split <;> rfl

@[simp] theorem record_failure_lft (cb : CircuitBreaker) (t : Int) :
    (cb.record_failure t).last_failure_time = some t := by
  unfold CircuitBreaker.record_failure
  dsimp only
  split <;> rfl

@[simp] theorem record_failure_threshold (cb : CircuitBreaker) (t : Int) :
    (cb.record_failure t).failure_threshold = cb.failure_threshold := by
  unfold CircuitBreaker.record_failure
  dsimp only
  split <;> rfl

@[simp] theorem record_failure_timeout (cb : CircuitBreaker) (t : Int) :
    (cb.record_failure t).recovery_timeout = cb.recovery_timeout := by
  unfold CircuitBreaker.record_failure
  dsimp only
  split <;> rfl

theorem record_failure_state_open (cb : CircuitBreaker) (t : Int)
    (h : cb.failure_threshold ≤ cb.failure_count + 1) :
    (cb.record_failure t).state = "open" := by
  unfold CircuitBreaker.record_failure
  dsimp only
  simp [h]

theorem record_failures_cons (cb : CircuitBreaker) (t : Int) (ts : List Int) :
    record_failures cb (t :: ts) = record_failures (cb.record_failure t) ts := rfl

theorem record_failures_count (ts : List Int) : ∀ cb : CircuitBreaker,
    (record_failures cb ts).failure_count = cb.failure_count + ts.length := by
  induction ts with
  | nil => intro cb; simp [record_failures]
  | cons t ts ih =>
    intro cb
    rw [record_failures_cons, ih]
    simp
    omega

theorem record_failures_threshold (ts : List Int) : ∀ cb : CircuitBreaker,
    (record_failures cb ts).failure_threshold = cb.failure_threshold := by
  induction ts with
  | nil => intro cb; rfl
  | cons t ts ih => intro cb; rw [record_failures_cons, ih]; simp

theorem record_failures_timeout (ts : List Int) : ∀ cb : CircuitBreaker,
    (record_failures cb ts).recovery_timeout = cb.recovery_timeout := by
  induction ts with
  | nil => intro cb; rfl
  | cons t ts ih => intro cb; rw [record_failures_cons, ih]; simp

theorem record_failures_opens (ts : List Int) : ∀ cb : CircuitBreaker, ts ≠ [] →
    cb.failure_threshold ≤ cb.failure_count + ts.length →
    (record_failures cb ts).state = "open" := by
  induction ts with
  | nil => intro cb h; exact absurd rfl h
  | cons t ts ih =>
    intro cb _ hle
    rw [record_failures_cons]
    rcases ts with _ | ⟨t2, ts2⟩
    · exact record_failure_state_open cb t (by simpa using hle)
    · refine ih _ (by simp) ?_
      simp at hle ⊢
      omega

end RateLimit

namespace RateLimit

/-- C7: after exactly `failure_threshold` consecutive failures on a fresh
breaker, `is_open` is true within the recovery timeout of the last failure;
a single `record_success` from any state zeroes the count, closes the
breaker, and makes `is_open` false. -/
theorem breaker_opens_at_threshold_and_success_closes
    (ft rt : Int) (ts : List Int) (tf now : Int) (cb : CircuitBreaker)
    (hft : 1 ≤ ft) (hlen : (ts.length : Int) + 1 = ft) (hnow : now - tf ≤ rt) :
    (((record_failures (CircuitBreaker.mkFresh ft rt) ts).record_failure tf).is_open now).1
      = true ∧
    cb.record_success.failure_count = 0 ∧
    cb.record_success.state = "closed" ∧
    ∀ t : Int, (cb.record_success.is_open t).1 = false := by
  refine ⟨?_, rfl, rfl, fun t => ?_⟩
  · have hcount : (record_failures (CircuitBreaker.mkFresh ft rt) ts).failure_count
        = (ts.length : Int) := by
      rw [record_failures_count]; simp [CircuitBreaker.mkFresh]
    have hth : (record_failures (CircuitBreaker.mkFresh ft rt) ts).failure_threshold = ft := by
      rw [record_failures_threshold]; rfl
    have hto : (record_failures (CircuitBreaker.mkFresh ft rt) ts).recovery_timeout = rt := by
      rw [record_failures_timeout]; rfl
    have hopen : ((record_failures (CircuitBreaker.mkFresh ft rt) ts).record_failure tf).state
        = "open" := by
      apply record_failure_state_open
      omega
    unfold CircuitBreaker.is_open
    rw [if_pos hopen]
    rw [record_failure_lft, record_failure_timeout, hto]
    rw [if_neg (by simp; omega)]
  · unfold CircuitBreaker.is_open CircuitBreaker.record_success
    simp

end RateLimit

namespace RateLimit

/-- C8: in the Open state, `is_open` strictly within the recovery timeout of
the last failure is true and leaves the state Open; once more than
`recovery_timeout` seconds have elapsed it is false and transitions the
state to HalfOpen in place; concretely with threshold 3 and timeout 60,
three failures at t=0 give true at t=30 and false (HalfOpen) at t=61. -/
theorem breaker_lazy_halfopen_recovery
    (cb : CircuitBreaker) (t now1 now2 : Int)
    (hstate : cb.state = "open") (hlft : cb.last_failure_time = some t)
    (h1 : now1 - t < cb.recovery_timeout) (h2 : cb.recovery_timeout < now2 - t) :
    cb.is_open now1 = (true, cb) ∧
    (cb.is_open now2).1 = false ∧
    (cb.is_open now2).2 = { cb with state := "half-open" } ∧
    (((record_failures (CircuitBreaker.mkFresh 3 60) [0, 0, 0]).is_open 30).1 = true ∧
     ((record_failures (CircuitBreaker.mkFresh 3 60) [0, 0, 0]).is_open 61).1 = false ∧
     ((record_failures (CircuitBreaker.mkFresh 3 60) [0, 0, 0]).is_open 61).2.state
       = "half-open") := by
  refine ⟨?_, ?_, ?_, by decide, by decide, by decide⟩
  · unfold CircuitBreaker.is_open
    rw [if_pos hstate, hlft, if_neg (by simp; omega)]
  · unfold CircuitBreaker.is_open
    rw [if_pos hstate, hlft, if_pos (by simpa using h2)]
  · unfold CircuitBreaker.is_open
    rw [if_pos hstate, hlft, if_pos (by simpa using h2)]

/-- C9 counterexample: a breaker driven to HalfOpen through the public
interface (three failures at t=0, then a query at t=61) admits more than
one request while HalfOpen — `is_open` returns false at t=62 and again at
t=63 with no `record_success`/`record_failure` in between. -/
theorem halfopen_admits_multiple_probes :
    (((record_failures (CircuitBreaker.mkFresh 3 60) [0, 0, 0]).is_open 61).2.state
      = "half-open") ∧
    ((((record_failures (CircuitBreaker.mkFresh 3 60) [0, 0, 0]).is_open 61).2.is_open 62).1
      = false) ∧
    ((((record_failures (CircuitBreaker.mkFresh 3 60) [0, 0, 0]).is_open 61).2.is_open 62).2.state
      = "half-open") ∧
    (((((record_failures (CircuitBreaker.mkFresh 3 60) [0, 0, 0]).is_open 61).2.is_open 62).2.is_open 63).1
      = false) := by decide

/-- C9 amended: while HalfOpen, every `is_open` call returns false and
leaves the state unchanged (all requests are admitted, not just one probe),
until `record_success` closes the breaker or a `record_failure` whose
increment reaches the threshold reopens it. -/
theorem halfopen_behavior (cb : CircuitBreaker) (now : Int)
    (h : cb.state = "half-open") :
    cb.is_open now = (false, cb) ∧
    cb.record_success.state = "closed" ∧
    cb.record_success.failure_count = 0 ∧
    (cb.failure_threshold ≤ cb.failure_count + 1 →
      (cb.record_failure now).state = "open") := by
  refine ⟨?_, rfl, rfl, fun hth => record_failure_state_open cb now hth⟩
  unfold CircuitBreaker.is_open
  rw [if_neg (by rw [h]; decide)]

/-- Witness for C7 at `failure_threshold = 2`: failures at t=0 and t=1,
queried at t=30 with timeout 60; success-reset checked on an open breaker. -/
theorem breaker_opens_witness :
    ((1:Int) ≤ 2 ∧ (([0]:List Int).length : Int) + 1 = 2 ∧ (30:Int) - 1 ≤ 60) ∧
    (((record_failures (CircuitBreaker.mkFresh 2 60) [0]).record_failure 1).is_open 30).1
      = true ∧
    ((⟨2, 60, 5, some 1, "open"⟩ : CircuitBreaker).record_success.failure_count = 0 ∧
     (⟨2, 60, 5, some 1, "open"⟩ : CircuitBreaker).record_success.state = "closed" ∧
     ((⟨2, 60, 5, some 1, "open"⟩ : CircuitBreaker).record_success.is_open 99).1 = false) := by
  have h := breaker_opens_at_threshold_and_success_closes 2 60 [0] 1 30
    ⟨2, 60, 5, some 1, "open"⟩ (by decide) (by decide) (by decide)
  exact ⟨⟨by decide, by decide, by decide⟩, h.1, h.2.1, h.2.2.1, h.2.2.2 99⟩

/-- Witness for C8 on the spec's concrete scenario: an open breaker with
threshold 3, timeout 60, last failure at t=0, queried at t=30 and t=61. -/
theorem breaker_lazy_witness :
    ((30:Int) - 0 < 60 ∧ (60:Int) < 61 - 0) ∧
    ((⟨3, 60, 3, some 0, "open"⟩ : CircuitBreaker).is_open 30
      = (true, ⟨3, 60, 3, some 0, "open"⟩)) ∧
    (((⟨3, 60, 3, some 0, "open"⟩ : CircuitBreaker).is_open 61).1 = false) ∧
    (((⟨3, 60, 3, some 0, "open"⟩ : CircuitBreaker).is_open 61).2.state = "half-open") := by
  have h := breaker_lazy_halfopen_recovery ⟨3, 60, 3, some 0, "open"⟩ 0 30 61
    rfl rfl (by decide) (by decide)
  exact ⟨⟨by decide, by decide⟩, h.1, h.2.1, by rw [h.2.2.1]⟩

/-- Witness for the amended C9 on a concrete HalfOpen breaker. -/
theorem halfopen_behavior_witness :
    ((⟨3, 60, 3, some 0, "half-open"⟩ : CircuitBreaker).state = "half-open") ∧
    ((⟨3, 60, 3, some 0, "half-open"⟩ : CircuitBreaker).is_open 100
      = (false, ⟨3, 60, 3, some 0, "half-open"⟩)) ∧
    ((⟨3, 60, 3, some 0, "half-open"⟩ : CircuitBreaker).record_success.state = "closed") ∧
    (((⟨3, 60, 3, some 0, "half-open"⟩ : CircuitBreaker).record_failure 100).state = "open") := by
  have h := halfopen_behavior ⟨3, 60, 3, some 0, "half-open"⟩ 100 rfl
  exact ⟨rfl, h.1, h.2.1, h.2.2.2 (by decide)⟩

end RateLimit

namespace RateLimit

theorem mem_check_deny (store : MemStore) (lt : RateLimitType) (lv : String)
    (config : RateLimitConfig) (now : Int)
    (h : config.requests_per_minute ≤
      ((pruneEntries config.window_size now ((store (memKey lt lv)).getD [])).length : Int)) :
    _check_memory_rate_limit store lt lv config now
      = (⟨false, 0, now + config.window_size, some config.window_size, some lt, some lv⟩,
         fun k => if k = memKey lt lv then
             some (pruneEntries config.window_size now ((store (memKey lt lv)).getD []))
           else store k) := by
  unfold _check_memory_rate_limit
  dsimp only
  rw [if_pos h]

theorem mem_check_allow (store : MemStore) (lt : RateLimitType) (lv : String)
    (config : RateLimitConfig) (now : Int)
    (h : ¬ config.requests_per_minute ≤
      ((pruneEntries config.window_size now ((store (memKey lt lv)).getD [])).length : Int)) :
    _check_memory_rate_limit store lt lv config now
      = (⟨true, max 0 (config.requests_per_minute -
            (((pruneEntries config.window_size now ((store (memKey lt lv)).getD []))
              ++ [now]).length : Int)),
          now + config.window_size, none, some lt, some lv⟩,
         fun k => if k = memKey lt lv then
             some ((pruneEntries config.window_size now ((store (memKey lt lv)).getD []))
               ++ [now])
           else store k) := by
  unfold _check_memory_rate_limit
  dsimp only
  rw [if_neg h]

theorem pruneEntries_idem (w now : Int) (l : List Int) :
    pruneEntries w now (pruneEntries w now l) = pruneEntries w now l := by
  unfold pruneEntries
  induction l with
  | nil => rfl
  | cons a l ih =>
    rw [List.filter_cons]
    by_cases h : decide (now - w < a) = true
    · rw [if_pos h, List.filter_cons, if_pos h, ih]
    · rw [if_neg h, ih]

theorem pruneEntries_replicate (w now : Int) (hw : 0 < w) (k : Nat) :
    pruneEntries w now (List.replicate k now) = List.replicate k now := by
  unfold pruneEntries
  induction k with
  | zero => rfl
  | succ k ih =>
    rw [List.replicate_succ, List.filter_cons, if_pos (by simp; omega), ih]

/-- C3: a disabled config always admits, without consulting either backend
or touching either store. -/
theorem disabled_config_always_admits (hasRedis redisRaises fb : Bool)
    (rstore : RedisStore) (mstore : MemStore) (lt : RateLimitType) (lv : String)
    (config : RateLimitConfig) (now : Int)
    (h : config.enabled = false) :
    check_rate_limit hasRedis redisRaises fb rstore mstore lt lv config now
      = (failOpenResult lt lv config now, rstore, mstore) ∧
    (check_rate_limit hasRedis redisRaises fb rstore mstore lt lv config now).1.allowed
      = true := by
  unfold check_rate_limit
  rw [if_pos h]
  exact ⟨rfl, rfl⟩

/-- Witness for C3. -/
theorem disabled_config_witness :
    ((⟨60, 1000, 10000, 10, 60, false⟩ : RateLimitConfig).enabled = false) ∧
    (check_rate_limit true false true (fun _ => 0) emptyMemStore .user "u"
        ⟨60, 1000, 10000, 10, 60, false⟩ 100).1.allowed = true := by
  refine ⟨rfl, ?_⟩
  exact (disabled_config_always_admits true false true (fun _ => 0) emptyMemStore .user "u"
    ⟨60, 1000, 10000, 10, 60, false⟩ 100 rfl).2

/-- C2: when the Redis backend raises inside `check_rate_limit`, the
exception is absorbed; with fallback enabled the result is the in-memory
backend's result, without fallback the call fails open with
`allowed = true`. -/
theorem fail_open_on_redis_exception (fb : Bool) (rstore : RedisStore) (mstore : MemStore)
    (lt : RateLimitType) (lv : String) (config : RateLimitConfig) (now : Int)
    (he : config.enabled = true) :
    (fb = true →
      check_rate_limit true true fb rstore mstore lt lv config now
        = ((_check_memory_rate_limit mstore lt lv config now).1, rstore,
           (_check_memory_rate_limit mstore lt lv config now).2)) ∧
    (fb = false →
      check_rate_limit true true fb rstore mstore lt lv config now
        = (failOpenResult lt lv config now, rstore, mstore) ∧
      (check_rate_limit true true fb rstore mstore lt lv config now).1.allowed = true) := by
  constructor
  · intro hfb
    unfold check_rate_limit
    rw [if_neg (by rw [he]; exact fun hcontra => Bool.noConfusion hcontra)]
    rw [hfb]
    rfl
  · intro hfb
    unfold check_rate_limit
    rw [if_neg (by rw [he]; exact fun hcontra => Bool.noConfusion hcontra)]
    rw [hfb]
    exact ⟨rfl, rfl⟩

/-- Witness for C2 at a concrete enabled config, in both fallback modes. -/
theorem fail_open_witness :
    ((⟨2, 1000, 10000, 10, 60, true⟩ : RateLimitConfig).enabled = true) ∧
    (check_rate_limit true true true (fun _ => 0) emptyMemStore .user "u"
        ⟨2, 1000, 10000, 10, 60, true⟩ 100
      = ((_check_memory_rate_limit emptyMemStore .user "u"
            ⟨2, 1000, 10000, 10, 60, true⟩ 100).1, fun _ => 0,
         (_check_memory_rate_limit emptyMemStore .user "u"
            ⟨2, 1000, 10000, 10, 60, true⟩ 100).2)) ∧
    (check_rate_limit true true false (fun _ => 0) emptyMemStore .user "u"
        ⟨2, 1000, 10000, 10, 60, true⟩ 100).1.allowed = true := by
  refine ⟨rfl, ?_, ?_⟩
  · exact (fail_open_on_redis_exception true (fun _ => 0) emptyMemStore .user "u"
      ⟨2, 1000, 10000, 10, 60, true⟩ 100 rfl).1 rfl
  · exact ((fail_open_on_redis_exception false (fun _ => 0) emptyMemStore .user "u"
      ⟨2, 1000, 10000, 10, 60, true⟩ 100 rfl).2 rfl).2

end RateLimit

namespace RateLimit

/-- C10: with `enabled=true` and a non-positive minute threshold the
in-memory backend always denies with `remaining = 0`; and on either
backend the returned `remaining` is never negative. -/
theorem nonpositive_threshold_denies_and_remaining_nonneg
    (mstore : MemStore) (lt : RateLimitType) (lv : String)
    (config : RateLimitConfig) (now : Int)
    (hc : config.enabled = true) (hn : config.requests_per_minute ≤ 0) :
    ((_check_memory_rate_limit mstore lt lv config now).1.allowed = false ∧
     (_check_memory_rate_limit mstore lt lv config now).1.remaining = 0) ∧
    (∀ (m2 : MemStore) (lt2 : RateLimitType) (lv2 : String) (c2 : RateLimitConfig) (n2 : Int),
       0 ≤ (_check_memory_rate_limit m2 lt2 lv2 c2 n2).1.remaining) ∧
    (∀ (r2 : RedisStore) (lt2 : RateLimitType) (lv2 : String) (c2 : RateLimitConfig) (n2 : Int),
       0 ≤ (_check_redis_rate_limit r2 lt2 lv2 c2 n2).1.remaining) := by
  refine ⟨?_, ?_, ?_⟩
  · have hd : config.requests_per_minute ≤
        ((pruneEntries config.window_size now ((mstore (memKey lt lv)).getD [])).length : Int) := by
      have : (0:Int) ≤ ((pruneEntries config.window_size now
          ((mstore (memKey lt lv)).getD [])).length : Int) := Int.ofNat_nonneg _
      omega
    rw [mem_check_deny mstore lt lv config now hd]
    exact ⟨rfl, rfl⟩
  · intro m2 lt2 lv2 c2 n2
    unfold _check_memory_rate_limit
    dsimp only
    split
    · exact le_refl 0
    · exact le_max_left 0 _
  · intro r2 lt2 lv2 c2 n2
    unfold _check_redis_rate_limit
    dsimp only
    split
    · exact le_refl 0
    · exact le_max_left 0 _

/-- Witness for C10: a zero minute threshold denies on the memory backend. -/
theorem nonpositive_threshold_witness :
    ((⟨0, 1000, 10000, 10, 60, true⟩ : RateLimitConfig).enabled = true ∧
     (⟨0, 1000, 10000, 10, 60, true⟩ : RateLimitConfig).requests_per_minute ≤ 0) ∧
    ((_check_memory_rate_limit emptyMemStore .user "u"
        ⟨0, 1000, 10000, 10, 60, true⟩ 100).1.allowed = false ∧
     (_check_memory_rate_limit emptyMemStore .user "u"
        ⟨0, 1000, 10000, 10, 60, true⟩ 100).1.remaining = 0) ∧
    (0 ≤ (_check_redis_rate_limit (fun _ => 0) .user "u"
        ⟨0, 1000, 10000, 10, 60, true⟩ 100).1.remaining) := by
  have h := nonpositive_threshold_denies_and_remaining_nonneg emptyMemStore .user "u"
    ⟨0, 1000, 10000, 10, 60, true⟩ 100 rfl (by decide)
  exact ⟨⟨rfl, by decide⟩, h.1, h.2.2 (fun _ => 0) .user "u" ⟨0, 1000, 10000, 10, 60, true⟩ 100⟩

theorem redisKey_ne_of_window (a b : RedisKey) (h : a.window ≠ b.window) : a ≠ b :=
  fun he => h (congrArg RedisKey.window he)

@[simp] theorem incr_self (store : RedisStore) (k : RedisKey) :
    incr store k k = store k + 1 := by
  simp [incr]

theorem incr_ne (store : RedisStore) (k k2 : RedisKey) (h : k2 ≠ k) :
    incr store k k2 = store k2 := by
  simp [incr, h]

end RateLimit

namespace RateLimit

/-- C5 (amended): on a Redis-backend denial the result has `allowed=false`,
`remaining=0`, `retry_after` equal to the full length of the smallest
over-budget window (60 preferring minute, then 3600 for hour, then 86400
for day), and `reset_time = now + retry_after`. -/
theorem redis_denial_fields (rstore : RedisStore) (lt : RateLimitType) (lv : String)
    (config : RateLimitConfig) (now : Int)
    (h : config.requests_per_minute < rstore (minuteKey lt lv now) + 1 ∨
         config.requests_per_hour < rstore (hourKey lt lv now) + 1 ∨
         config.requests_per_day < rstore (dayKey lt lv now) + 1) :
    (_check_redis_rate_limit rstore lt lv config now).1.allowed = false ∧
    (_check_redis_rate_limit rstore lt lv config now).1.remaining = 0 ∧
    (_check_redis_rate_limit rstore lt lv config now).1.retry_after
      = some (if config.requests_per_minute < rstore (minuteKey lt lv now) + 1 then 60
          else if config.requests_per_hour < rstore (hourKey lt lv now) + 1 then 3600
          else 86400) ∧
    (_check_redis_rate_limit rstore lt lv config now).1.reset_time
      = now + (if config.requests_per_minute < rstore (minuteKey lt lv now) + 1 then 60
          else if config.requests_per_hour < rstore (hourKey lt lv now) + 1 then 3600
          else 86400) := by
  have hhm : hourKey lt lv now ≠ minuteKey lt lv now :=
    redisKey_ne_of_window _ _ (show "hour" ≠ "minute" by decide)
  have hdm : dayKey lt lv now ≠ minuteKey lt lv now :=
    redisKey_ne_of_window _ _ (show "day" ≠ "minute" by decide)
  have hdh : dayKey lt lv now ≠ hourKey lt lv now :=
    redisKey_ne_of_window _ _ (show "day" ≠ "hour" by decide)
  unfold _check_redis_rate_limit
  dsimp only
  simp only [incr_self, incr_ne _ _ _ hhm, incr_ne _ _ _ hdh, incr_ne _ _ _ hdm]
  rw [if_pos h]
  refine ⟨rfl, rfl, ?_, ?_⟩
  · by_cases h1 : config.requests_per_minute < rstore (minuteKey lt lv now) + 1
    · simp [h1, optIntFalsy, optIntOr]
    · by_cases h2 : config.requests_per_hour < rstore (hourKey lt lv now) + 1
      · simp [h1, h2, optIntFalsy, optIntOr]
      · have h3 : config.requests_per_day < rstore (dayKey lt lv now) + 1 := by tauto
        simp [h1, h2, h3, optIntFalsy, optIntOr]
  · by_cases h1 : config.requests_per_minute < rstore (minuteKey lt lv now) + 1
    · simp [h1, optIntFalsy, optIntOr]
    · by_cases h2 : config.requests_per_hour < rstore (hourKey lt lv now) + 1
      · simp [h1, h2, optIntFalsy, optIntOr]
      · have h3 : config.requests_per_day < rstore (dayKey lt lv now) + 1 := by tauto
        simp [h1, h2, h3, optIntFalsy, optIntOr]

/-- C5 counterexample: at `now = 30` (mid-bucket) with the minute window
over budget, the code returns `retry_after = 60`, while the time remaining
in that epoch-aligned minute window is 30, so `retry_after` is not the time
remaining in the smallest over-budget window. -/
theorem redis_retry_after_not_time_remaining :
    ((_check_redis_rate_limit
        (fun k => if k = minuteKey .user "u" 30 then 2 else 0) .user "u"
        ⟨2, 1000, 10000, 10, 60, true⟩ 30).1.allowed = false) ∧
    ((_check_redis_rate_limit
        (fun k => if k = minuteKey .user "u" 30 then 2 else 0) .user "u"
        ⟨2, 1000, 10000, 10, 60, true⟩ 30).1.retry_after = some 60) ∧
    minuteWindowTimeRemaining 30 = 30 ∧ (60 : Int) ≠ 30 := by decide

/-- Witness for the amended C5 at the same concrete input. -/
theorem redis_denial_fields_witness :
    ((⟨2, 1000, 10000, 10, 60, true⟩ : RateLimitConfig).requests_per_minute <
      (fun k => if k = minuteKey .user "u" 30 then 2 else 0 : RedisStore)
        (minuteKey .user "u" 30) + 1) ∧
    ((_check_redis_rate_limit
        (fun k => if k = minuteKey .user "u" 30 then 2 else 0) .user "u"
        ⟨2, 1000, 10000, 10, 60, true⟩ 30).1.remaining = 0) ∧
    ((_check_redis_rate_limit
        (fun k => if k = minuteKey .user "u" 30 then 2 else 0) .user "u"
        ⟨2, 1000, 10000, 10, 60, true⟩ 30).1.reset_time = 30 + 60) := by
  have h := redis_denial_fields
    (fun k => if k = minuteKey .user "u" 30 then 2 else 0) .user "u"
    ⟨2, 1000, 10000, 10, 60, true⟩ 30 (Or.inl (by decide))
  refine ⟨by decide, h.2.1, ?_⟩
  rw [h.2.2.2, if_pos (by decide)]

end RateLimit

namespace RateLimit

theorem pruneEntries_compose (w t1 t2 : Int) (h : t1 ≤ t2) (l : List Int) :
    pruneEntries w t2 (pruneEntries w t1 l) = pruneEntries w t2 l := by
  unfold pruneEntries
  induction l with
  | nil => rfl
  | cons a l ih =>
    by_cases h1 : decide (t1 - w < a) = true
    · rw [List.filter_cons, if_pos h1, List.filter_cons, List.filter_cons]
      by_cases h2 : decide (t2 - w < a) = true
      · rw [if_pos h2, if_pos h2, ih]
      · rw [if_neg h2, if_neg h2, ih]
    · rw [List.filter_cons, if_neg h1, List.filter_cons]
      have h2 : ¬ decide (t2 - w < a) = true := by
        simp at h1 ⊢; omega
      rw [if_neg h2, ih]

theorem mem_exhausted_step (st : MemStore) (lt : RateLimitType) (lv : String)
    (config : RateLimitConfig) (t : Int)
    (h : config.requests_per_minute ≤
      ((pruneEntries config.window_size t ((st (memKey lt lv)).getD [])).length : Int)) :
    (_check_memory_rate_limit st lt lv config t).1.allowed = false ∧
    ((_check_memory_rate_limit st lt lv config t).2 (memKey lt lv)).getD []
      = pruneEntries config.window_size t ((st (memKey lt lv)).getD []) ∧
    (∀ k, k ≠ memKey lt lv → (_check_memory_rate_limit st lt lv config t).2 k = st k) := by
  rw [mem_check_deny st lt lv config t h]
  exact ⟨rfl, by simp, fun k hk => by simp [hk]⟩

theorem memCheckResults_cons (lt : RateLimitType) (lv : String)
    (config : RateLimitConfig) (st : MemStore) (t : Int) (ts : List Int) :
    memCheckResults lt lv config st (t :: ts)
      = (_check_memory_rate_limit st lt lv config t).1 ::
        memCheckResults lt lv config
          (_check_memory_rate_limit st lt lv config t).2 ts := rfl

theorem memCheckResults_denied (lt : RateLimitType) (lv : String)
    (config : RateLimitConfig) (E : List Int) :
    ∀ (ts : List Int) (st : MemStore) (t0 : Int),
      List.Chain' (· ≤ ·) (t0 :: ts) →
      (∀ t2 : Int, t0 ≤ t2 →
        pruneEntries config.window_size t2 ((st (memKey lt lv)).getD [])
          = pruneEntries config.window_size t2 E) →
      (∀ t ∈ t0 :: ts, config.requests_per_minute
        ≤ ((pruneEntries config.window_size t E).length : Int)) →
      ∀ r ∈ memCheckResults lt lv config st (t0 :: ts), r.allowed = false := by
  intro ts
  induction ts with
  | nil =>
    intro st t0 _ hinv hex r hr
    have hx : config.requests_per_minute
        ≤ ((pruneEntries config.window_size t0 ((st (memKey lt lv)).getD [])).length : Int) := by
      rw [hinv t0 le_rfl]; exact hex t0 (by simp)
    simp only [memCheckResults, List.mem_singleton] at hr
    subst hr
    exact (mem_exhausted_step st lt lv config t0 hx).1
  | cons t1 ts ih =>
    intro st t0 hchain hinv hex r hr
    have hx : config.requests_per_minute
        ≤ ((pruneEntries config.window_size t0 ((st (memKey lt lv)).getD [])).length : Int) := by
      rw [hinv t0 le_rfl]; exact hex t0 (by simp)
    have hstep := mem_exhausted_step st lt lv config t0 hx
    rw [List.chain'_cons] at hchain
    rw [memCheckResults_cons, List.mem_cons] at hr
    rcases hr with hr | hr
    · subst hr
      exact hstep.1
    · refine ih (_check_memory_rate_limit st lt lv config t0).2 t1 hchain.2 ?_ ?_ r hr
      · intro t2 ht2
        have h02 : t0 ≤ t2 := le_trans hchain.1 ht2
        rw [hstep.2.1, pruneEntries_compose _ _ _ h02, hinv t2 h02]
      · intro t ht
        exact hex t (List.mem_cons_of_mem t0 ht)

/-- C1: exhaustion invariant and no false denial.  Memory backend: a denied
check is a fixed point at the same instant; moreover, once the subject's
recorded usage fills the window (pruned count at or above the minute
threshold), every check of a subsequent nondecreasing sequence of instants
is denied for as long as that usage, pruned at each queried instant, still
fills the window — i.e. until the sliding window rolls over — and a check
whose pruned usage is strictly below the minute threshold is always
admitted.  Redis backend: within an unchanged bucket, once a window's
stored usage has reached its threshold every check is denied and the usage
stays at or above the threshold; and when usage in all three consulted
windows is strictly below its threshold the check is admitted. -/
theorem exhaustion_and_no_false_denial
    (lt : RateLimitType) (lv : String) (config : RateLimitConfig) (now : Int)
    (mstore : MemStore) (rstore : RedisStore) :
    ((_check_memory_rate_limit mstore lt lv config now).1.allowed = false →
      _check_memory_rate_limit (_check_memory_rate_limit mstore lt lv config now).2
          lt lv config now
        = _check_memory_rate_limit mstore lt lv config now) ∧
    (∀ ts : List Int, List.Chain' (· ≤ ·) (now :: ts) →
      (∀ t ∈ now :: ts, config.requests_per_minute
        ≤ ((pruneEntries config.window_size t
            ((mstore (memKey lt lv)).getD [])).length : Int)) →
      ∀ r ∈ memCheckResults lt lv config mstore (now :: ts), r.allowed = false) ∧
    (((pruneEntries config.window_size now ((mstore (memKey lt lv)).getD [])).length : Int)
        < config.requests_per_minute →
      (_check_memory_rate_limit mstore lt lv config now).1.allowed = true) ∧
    (∀ now2 : Int, Int.fdiv now2 60 = Int.fdiv now 60 →
      config.requests_per_minute ≤ rstore (minuteKey lt lv now) →
      (_check_redis_rate_limit rstore lt lv config now2).1.allowed = false ∧
      config.requests_per_minute
        ≤ (_check_redis_rate_limit rstore lt lv config now2).2 (minuteKey lt lv now)) ∧
    (∀ now2 : Int, Int.fdiv now2 3600 = Int.fdiv now 3600 →
      config.requests_per_hour ≤ rstore (hourKey lt lv now) →
      (_check_redis_rate_limit rstore lt lv config now2).1.allowed = false ∧
      config.requests_per_hour
        ≤ (_check_redis_rate_limit rstore lt lv config now2).2 (hourKey lt lv now)) ∧
    (∀ now2 : Int, Int.fdiv now2 86400 = Int.fdiv now 86400 →
      config.requests_per_day ≤ rstore (dayKey lt lv now) →
      (_check_redis_rate_limit rstore lt lv config now2).1.allowed = false ∧
      config.requests_per_day
        ≤ (_check_redis_rate_limit rstore lt lv config now2).2 (dayKey lt lv now)) ∧
    (rstore (minuteKey lt lv now) < config.requests_per_minute →
     rstore (hourKey lt lv now) < config.requests_per_hour →
     rstore (dayKey lt lv now) < config.requests_per_day →
      (_check_redis_rate_limit rstore lt lv config now).1.allowed = true) := by
  refine ⟨?_, ?_, ?_, ?_, ?_, ?_, ?_⟩
  · intro hd
    by_cases hcond : config.requests_per_minute ≤
        ((pruneEntries config.window_size now ((mstore (memKey lt lv)).getD [])).length : Int)
    · rw [mem_check_deny mstore lt lv config now hcond]
      have hkey : (((fun k => if k = memKey lt lv then
            some (pruneEntries config.window_size now ((mstore (memKey lt lv)).getD []))
          else mstore k) : MemStore) (memKey lt lv)).getD []
          = pruneEntries config.window_size now ((mstore (memKey lt lv)).getD []) := by
        simp
      rw [mem_check_deny _ lt lv config now (by rw [hkey, pruneEntries_idem]; exact hcond)]
      rw [Prod.mk.injEq]
      refine ⟨rfl, ?_⟩
      funext k
      by_cases hk : k = memKey lt lv
      · simp [hk, hkey, pruneEntries_idem]
      · simp [hk]
    · rw [mem_check_allow mstore lt lv config now hcond] at hd
      simp at hd
  · intro ts hchain hex
    exact memCheckResults_denied lt lv config ((mstore (memKey lt lv)).getD [])
      ts mstore now hchain (fun t2 _ => rfl) hex
  · intro hlt
    rw [mem_check_allow mstore lt lv config now (by omega)]
  · intro now2 hb hx
    have hkeq : minuteKey lt lv now2 = minuteKey lt lv now := by
      unfold minuteKey; rw [hb]
    have hhm : hourKey lt lv now2 ≠ minuteKey lt lv now :=
      redisKey_ne_of_window _ _ (show "hour" ≠ "minute" by decide)
    have hdm : dayKey lt lv now2 ≠ minuteKey lt lv now :=
      redisKey_ne_of_window _ _ (show "day" ≠ "minute" by decide)
    have hdh : dayKey lt lv now2 ≠ hourKey lt lv now2 :=
      redisKey_ne_of_window _ _ (show "day" ≠ "hour" by decide)
    have hmd : minuteKey lt lv now ≠ dayKey lt lv now2 :=
      redisKey_ne_of_window _ _ (show "minute" ≠ "day" by decide)
    have hmh : minuteKey lt lv now ≠ hourKey lt lv now2 :=
      redisKey_ne_of_window _ _ (show "minute" ≠ "hour" by decide)
    unfold _check_redis_rate_limit
    dsimp only
    rw [hkeq]
    simp only [incr_self, incr_ne _ _ _ hhm, incr_ne _ _ _ hdh, incr_ne _ _ _ hdm]
    rw [if_pos (Or.inl (by omega))]
    refine ⟨rfl, ?_⟩
    dsimp only
    rw [incr_ne _ _ _ hmd, incr_ne _ _ _ hmh, incr_self]
    omega
  · intro now2 hb hx
    have hkeq : hourKey lt lv now2 = hourKey lt lv now := by
      unfold hourKey; rw [hb]
    have hhm : hourKey lt lv now ≠ minuteKey lt lv now2 :=
      redisKey_ne_of_window _ _ (show "hour" ≠ "minute" by decide)
    have hdm : dayKey lt lv now2 ≠ minuteKey lt lv now2 :=
      redisKey_ne_of_window _ _ (show "day" ≠ "minute" by decide)
    have hdh : dayKey lt lv now2 ≠ hourKey lt lv now :=
      redisKey_ne_of_window _ _ (show "day" ≠ "hour" by decide)
    have hhd : hourKey lt lv now ≠ dayKey lt lv now2 :=
      redisKey_ne_of_window _ _ (show "hour" ≠ "day" by decide)
    unfold _check_redis_rate_limit
    dsimp only
    rw [hkeq]
    simp only [incr_self, incr_ne _ _ _ hhm, incr_ne _ _ _ hdh, incr_ne _ _ _ hdm]
    rw [if_pos (Or.inr (Or.inl (by omega)))]
    refine ⟨rfl, ?_⟩
    dsimp only
    rw [incr_ne _ _ _ hhd, incr_self, incr_ne _ _ _ hhm]
    omega
  · intro now2 hb hx
    have hkeq : dayKey lt lv now2 = dayKey lt lv now := by
      unfold dayKey; rw [hb]
    have hhm : hourKey lt lv now2 ≠ minuteKey lt lv now2 :=
      redisKey_ne_of_window _ _ (show "hour" ≠ "minute" by decide)
    have hdm : dayKey lt lv now ≠ minuteKey lt lv now2 :=
      redisKey_ne_of_window _ _ (show "day" ≠ "minute" by decide)
    have hdh : dayKey lt lv now ≠ hourKey lt lv now2 :=
      redisKey_ne_of_window _ _ (show "day" ≠ "hour" by decide)
    unfold _check_redis_rate_limit
    dsimp only
    rw [hkeq]
    simp only [incr_self, incr_ne _ _ _ hhm, incr_ne _ _ _ hdh, incr_ne _ _ _ hdm]
    rw [if_pos (Or.inr (Or.inr (by omega)))]
    refine ⟨rfl, ?_⟩
    dsimp only
    rw [incr_self, incr_ne _ _ _ hdh, incr_ne _ _ _ hdm]
    omega
  · intro h1 h2 h3
    have hhm : hourKey lt lv now ≠ minuteKey lt lv now :=
      redisKey_ne_of_window _ _ (show "hour" ≠ "minute" by decide)
    have hdm : dayKey lt lv now ≠ minuteKey lt lv now :=
      redisKey_ne_of_window _ _ (show "day" ≠ "minute" by decide)
    have hdh : dayKey lt lv now ≠ hourKey lt lv now :=
      redisKey_ne_of_window _ _ (show "day" ≠ "hour" by decide)
    unfold _check_redis_rate_limit
    dsimp only
    simp only [incr_self, incr_ne _ _ _ hhm, incr_ne _ _ _ hdh, incr_ne _ _ _ hdm]
    rw [if_neg (by push_neg; exact ⟨by omega, by omega, by omega⟩)]

end RateLimit

namespace RateLimit

theorem mem_status_none (store : MemStore) (lt : RateLimitType) (lv : String)
    (config : RateLimitConfig) (now : Int)
    (h : store (memKey lt lv) = none) :
    _get_memory_status store lt lv config now
      = (⟨⟨0, config.requests_per_minute, max 0 (config.requests_per_minute - 0)⟩,
          lt.value, lv⟩, store) := by
  unfold _get_memory_status
  dsimp only
  rw [h]

theorem mem_status_some (store : MemStore) (lt : RateLimitType) (lv : String)
    (config : RateLimitConfig) (now : Int) (l : List Int)
    (h : store (memKey lt lv) = some l) :
    _get_memory_status store lt lv config now
      = (⟨⟨((pruneEntries config.window_size now l).length : Int),
           config.requests_per_minute,
           max 0 (config.requests_per_minute
             - ((pruneEntries config.window_size now l).length : Int))⟩,
          lt.value, lv⟩,
         fun k => if k = memKey lt lv then some (pruneEntries config.window_size now l)
           else store k) := by
  unfold _get_memory_status
  dsimp only
  rw [h]

theorem mem_check_congr (m1 m2 : MemStore) (lt : RateLimitType) (lv : String)
    (config : RateLimitConfig) (now : Int)
    (h : pruneEntries config.window_size now ((m1 (memKey lt lv)).getD [])
       = pruneEntries config.window_size now ((m2 (memKey lt lv)).getD []))
    (h2 : ∀ k, k ≠ memKey lt lv → m1 k = m2 k) :
    _check_memory_rate_limit m1 lt lv config now
      = _check_memory_rate_limit m2 lt lv config now := by
  unfold _check_memory_rate_limit
  dsimp only
  rw [h]
  by_cases hcond : config.requests_per_minute ≤
      ((pruneEntries config.window_size now ((m2 (memKey lt lv)).getD [])).length : Int)
  · rw [if_pos hcond, if_pos hcond, Prod.mk.injEq]
    refine ⟨rfl, funext fun k => ?_⟩
    by_cases hk : k = memKey lt lv
    · simp [hk]
    · simp [hk, h2 k hk]
  · rw [if_neg hcond, if_neg hcond, Prod.mk.injEq]
    refine ⟨rfl, funext fun k => ?_⟩
    by_cases hk : k = memKey lt lv
    · simp [hk]
    · simp [hk, h2 k hk]

/-- C6: status queries are non-consuming and idempotent.  On the Redis
backend the status map reports the stored counters themselves (`GET`, no
increment).  On the memory backend a second status query returns the same
map and the same store, and a check performed after a status query equals
the check performed directly on the original store. -/
theorem status_idempotent_and_nonconsuming
    (lt : RateLimitType) (lv : String) (config : RateLimitConfig) (now : Int)
    (rstore : RedisStore) (mstore : MemStore) :
    ((_get_redis_status rstore lt lv config now).minute.count
        = rstore (minuteKey lt lv now) ∧
     (_get_redis_status rstore lt lv config now).hour.count
        = rstore (hourKey lt lv now) ∧
     (_get_redis_status rstore lt lv config now).day.count
        = rstore (dayKey lt lv now)) ∧
    (_get_memory_status (_get_memory_status mstore lt lv config now).2 lt lv config now
      = _get_memory_status mstore lt lv config now) ∧
    (_check_memory_rate_limit (_get_memory_status mstore lt lv config now).2 lt lv config now
      = _check_memory_rate_limit mstore lt lv config now) := by
  refine ⟨⟨rfl, rfl, rfl⟩, ?_, ?_⟩
  · cases h : mstore (memKey lt lv) with
    | none =>
      rw [mem_status_none mstore lt lv config now h]
      dsimp only
      rw [mem_status_none mstore lt lv config now h]
    | some l =>
      rw [mem_status_some mstore lt lv config now l h]
      dsimp only
      rw [mem_status_some _ lt lv config now (pruneEntries config.window_size now l)
        (by simp)]
      rw [Prod.mk.injEq]
      constructor
      · rw [pruneEntries_idem]
      · funext k
        by_cases hk : k = memKey lt lv
        · simp [hk, pruneEntries_idem]
        · simp [hk]
  · cases h : mstore (memKey lt lv) with
    | none =>
      rw [mem_status_none mstore lt lv config now h]
    | some l =>
      rw [mem_status_some mstore lt lv config now l h]
      dsimp only
      refine mem_check_congr _ mstore lt lv config now ?_ ?_
      · simp [h, pruneEntries_idem]
      · intro k hk
        simp [hk]

end RateLimit

namespace RateLimit

theorem memIter_entries (lt : RateLimitType) (lv : String) (config : RateLimitConfig)
    (now : Int) (hw : 0 < config.window_size) :
    ∀ k : Nat, (k : Int) ≤ config.requests_per_minute →
      ((memCheckIter lt lv config now k emptyMemStore) (memKey lt lv)).getD []
        = List.replicate k now := by
  intro k
  induction k with
  | zero => intro _; rfl
  | succ k ih =>
    intro hk
    have hklt : (k : Int) < config.requests_per_minute := by push_cast at hk; omega
    have hprev := ih (le_of_lt hklt)
    show ((_check_memory_rate_limit (memCheckIter lt lv config now k emptyMemStore)
        lt lv config now).2 (memKey lt lv)).getD [] = _
    rw [mem_check_allow _ lt lv config now (by
      rw [hprev, pruneEntries_replicate _ _ hw, List.length_replicate]; omega)]
    dsimp only
    rw [if_pos rfl]
    rw [Option.getD_some, hprev, pruneEntries_replicate _ _ hw, ← List.replicate_succ']

/-- C4: with a positive minute threshold `N`, a positive window and a fixed
clock, the 1st through `N`-th in-memory checks for a fresh subject are
admitted with `remaining = N - (k+1)` after the `(k+1)`-th, and the
`(N+1)`-th is denied with `retry_after = window_size` and `remaining = 0`. -/
theorem memory_admits_exactly_quota (lt : RateLimitType) (lv : String)
    (config : RateLimitConfig) (now : Int)
    (he : config.enabled = true)
    (hN : 0 < config.requests_per_minute) (hw : 0 < config.window_size) :
    (∀ k : Nat, (k : Int) < config.requests_per_minute →
      (memCheckResult lt lv config now k emptyMemStore).allowed = true ∧
      (memCheckResult lt lv config now k emptyMemStore).remaining
        = config.requests_per_minute - ((k : Int) + 1)) ∧
    ((memCheckResult lt lv config now config.requests_per_minute.toNat
        emptyMemStore).allowed = false ∧
     (memCheckResult lt lv config now config.requests_per_minute.toNat
        emptyMemStore).retry_after = some config.window_size ∧
     (memCheckResult lt lv config now config.requests_per_minute.toNat
        emptyMemStore).remaining = 0) := by
  constructor
  · intro k hk
    have hent := memIter_entries lt lv config now hw k (le_of_lt hk)
    unfold memCheckResult
    rw [mem_check_allow _ lt lv config now (by
      rw [hent, pruneEntries_replicate _ _ hw, List.length_replicate]; omega)]
    refine ⟨rfl, ?_⟩
    dsimp only
    rw [hent, pruneEntries_replicate _ _ hw, List.length_append, List.length_replicate,
      List.length_singleton]
    push_cast
    rw [max_eq_right (by omega)]
  · have htn : ((config.requests_per_minute.toNat : Int)) = config.requests_per_minute :=
      Int.toNat_of_nonneg (le_of_lt hN)
    have hent := memIter_entries lt lv config now hw config.requests_per_minute.toNat
      (le_of_eq htn)
    unfold memCheckResult
    rw [mem_check_deny _ lt lv config now (by
      rw [hent, pruneEntries_replicate _ _ hw, List.length_replicate, htn])]
    exact ⟨rfl, rfl, rfl⟩

/-- Witness for C4 at `N = 2`, window 60, fixed clock `t = 100`: the first
two checks are admitted with remaining 1 then 0, the third is denied with
`retry_after = 60`. -/
theorem memory_admits_exactly_quota_witness :
    ((⟨2, 1000, 10000, 10, 60, true⟩ : RateLimitConfig).enabled = true ∧
     (0:Int) < 2 ∧ (0:Int) < 60) ∧
    ((memCheckResult .user "u1" ⟨2, 1000, 10000, 10, 60, true⟩ 100 0
        emptyMemStore).allowed = true ∧
     (memCheckResult .user "u1" ⟨2, 1000, 10000, 10, 60, true⟩ 100 0
        emptyMemStore).remaining = 2 - (0 + 1)) ∧
    ((memCheckResult .user "u1" ⟨2, 1000, 10000, 10, 60, true⟩ 100 1
        emptyMemStore).allowed = true ∧
     (memCheckResult .user "u1" ⟨2, 1000, 10000, 10, 60, true⟩ 100 1
        emptyMemStore).remaining = 2 - (1 + 1)) ∧
    ((memCheckResult .user "u1" ⟨2, 1000, 10000, 10, 60, true⟩ 100 2
        emptyMemStore).allowed = false ∧
     (memCheckResult .user "u1" ⟨2, 1000, 10000, 10, 60, true⟩ 100 2
        emptyMemStore).retry_after = some 60) := by
  have h := memory_admits_exactly_quota .user "u1" ⟨2, 1000, 10000, 10, 60, true⟩ 100
    rfl (by decide) (by decide)
  have h0 := h.1 0 (by decide)
  have h1 := h.1 1 (by decide)
  exact ⟨⟨rfl, by decide, by decide⟩, ⟨h0.1, by rw [h0.2]; decide⟩,
    ⟨h1.1, by rw [h1.2]; decide⟩, h.2.1, h.2.2.1⟩

/-- Witness for C1 at concrete stores: an exhausted memory subject stays
denied and consumes nothing, and every check of the later sequence
t = 10, 11, 12 (its usage still filling the window at each instant) is
denied; an unexhausted subject is admitted; a Redis subject at its minute
threshold is denied; one strictly below every threshold is admitted. -/
theorem exhaustion_and_no_false_denial_witness :
    ((_check_memory_rate_limit
        (fun k => if k = "user:u" then some [9, 10] else none) .user "u"
        ⟨2, 10, 20, 10, 60, true⟩ 10).1.allowed = false) ∧
    (_check_memory_rate_limit
        (_check_memory_rate_limit
          (fun k => if k = "user:u" then some [9, 10] else none) .user "u"
          ⟨2, 10, 20, 10, 60, true⟩ 10).2 .user "u" ⟨2, 10, 20, 10, 60, true⟩ 10
      = _check_memory_rate_limit
          (fun k => if k = "user:u" then some [9, 10] else none) .user "u"
          ⟨2, 10, 20, 10, 60, true⟩ 10) ∧
    (List.Chain' (· ≤ ·) [(10 : Int), 11, 12] ∧
     (∀ t ∈ [(10 : Int), 11, 12], (2 : Int)
        ≤ ((pruneEntries 60 t [9, 10]).length : Int)) ∧
     ∀ r ∈ memCheckResults .user "u" ⟨2, 10, 20, 10, 60, true⟩
        (fun k => if k = "user:u" then some [9, 10] else none) [10, 11, 12],
       r.allowed = false) ∧
    ((_check_memory_rate_limit emptyMemStore .user "u"
        ⟨2, 10, 20, 10, 60, true⟩ 10).1.allowed = true) ∧
    ((_check_redis_rate_limit
        (fun k => if k = minuteKey .user "u" 10 then 2 else 0) .user "u"
        ⟨2, 10, 20, 10, 60, true⟩ 10).1.allowed = false) ∧
    ((_check_redis_rate_limit (fun _ => 0) .user "u"
        ⟨2, 10, 20, 10, 60, true⟩ 10).1.allowed = true) := by
  have hA := exhaustion_and_no_false_denial .user "u" ⟨2, 10, 20, 10, 60, true⟩ 10
    (fun k => if k = "user:u" then some [9, 10] else none)
    (fun k => if k = minuteKey .user "u" 10 then 2 else 0)
  have hB := exhaustion_and_no_false_denial .user "u" ⟨2, 10, 20, 10, 60, true⟩ 10
    emptyMemStore (fun _ => 0)
  exact ⟨by decide, hA.1 (by decide),
    ⟨by simp [List.chain'_cons], by decide,
     hA.2.1 [11, 12] (by simp [List.chain'_cons]) (by decide)⟩,
    hB.2.2.1 (by decide),
    (hA.2.2.2.1 10 rfl (by decide)).1,
    hB.2.2.2.2.2.2 (by decide) (by decide) (by decide)⟩

end RateLimit
